import Mathlib

/-!
Verification of the AAudio audio-output driver (src/audio/out/ao_aaudio.c).

The development shallowly embeds the driver functions as pure Lean
functions over explicit state.  OS-level calls (dlopen, dlsym,
AAudio_createStreamBuilder, AAudioStreamBuilder_openStream,
AAudioStream_requestStart, AAudioStream_requestPause,
AAudioStream_waitForStateChange, AAudioStream_getTimestamp) are modelled
by oracle records holding the results those calls return in one
execution; aaudio_result_t values are Int, with success meaning
a nonnegative result, exactly as the C code tests result >= 0.
Side effects on handles are modelled by explicit record updates, and
the sequence of teardown / builder / stream calls a function performs
is returned as a trace of events so ordering claims can be stated.
-/

namespace Aaudio

/-- Sample formats of the player pipeline (the mpv AF_FORMAT values an
audio output can receive: unsigned 8 bit, signed 16/32/64 bit integer,
float, double, and the spdif passthrough family). -/
inductive AFFormat
  | u8
  | s16
  | s32
  | s64
  | flt
  | dbl
  | spdif_aac
  | spdif_ac3
  | spdif_dts
  | spdif_dtshd
  | spdif_eac3
  | spdif_mp3
  | spdif_truehd
  deriving DecidableEq, Repr

/-- Modelled from the spec: the generic sample-format classification
helper af_fmt_is_float (audio/format.c is not among the given sources;
the spec treats the float/int/bit-depth queries as pure predicates).
True exactly on the floating-point formats. -/
def AFFormat.is_float : AFFormat → Bool
  | .flt => true
  | .dbl => true
  | _ => false

/-- Modelled from the spec: the classification helper af_fmt_is_spdif,
true exactly on the encoded passthrough formats. -/
def AFFormat.is_spdif : AFFormat → Bool
  | .spdif_aac => true
  | .spdif_ac3 => true
  | .spdif_dts => true
  | .spdif_dtshd => true
  | .spdif_eac3 => true
  | .spdif_mp3 => true
  | .spdif_truehd => true
  | _ => false

/-- Modelled from the spec: the classification helper af_fmt_is_int,
true exactly on the plain integer PCM formats (spdif formats are not
integer PCM). -/
def AFFormat.is_int : AFFormat → Bool
  | .u8 => true
  | .s16 => true
  | .s32 => true
  | .s64 => true
  | _ => false

/-- Modelled from the spec: the bit-depth query af_fmt_to_bytes, the
size in bytes of one sample of the format (spdif formats behave as
16-bit containers). -/
def af_fmt_to_bytes : AFFormat → Nat
  | .u8 => 1
  | .s16 => 2
  | .s32 => 4
  | .s64 => 8
  | .flt => 4
  | .dbl => 8
  | _ => 2

/-- AAudio stream formats the driver can request (aaudio_format_t
values used by init). -/
inductive AAudioFormat
  | iec61937
  | pcm_float
  | pcm_i32
  | pcm_i16
  deriving DecidableEq, Repr

/-- Condition of the first branch of the format selection in init:
device_api >= 34 and af_fmt_is_spdif(ao->format). -/
def passthrough_case (api : Nat) (f : AFFormat) : Bool :=
  decide (34 ≤ api) && f.is_spdif

/-- Format selection of init (ao_aaudio.c lines 287-303): returns the
aaudio_format_t passed to AAudioStreamBuilder_setFormat together with
the value ao->format holds afterwards (in the passthrough branch
ao->format is not assigned, so it keeps its input value). -/
def init_select_format (api : Nat) (f : AFFormat) : AAudioFormat × AFFormat :=
  if passthrough_case api f then
    (.iec61937, f)
  else if f.is_float then
    (.pcm_float, .flt)
  else if f.is_int then
    if 2 < af_fmt_to_bytes f ∧ 31 ≤ api then
      (.pcm_i32, .s32)
    else
      (.pcm_i16, .s16)
  else
    (.pcm_i16, .s16)

/-- Symbols of the API 26 tier (lib_functions26 in ao_aaudio.c), in
source order. -/
def lib_functions26 : List String :=
  ["AAudio_convertResultToText",
   "AAudio_convertStreamStateToText",
   "AAudio_createStreamBuilder",
   "AAudioStreamBuilder_setDeviceId",
   "AAudioStreamBuilder_setSampleRate",
   "AAudioStreamBuilder_setChannelCount",
   "AAudioStreamBuilder_setSamplesPerFrame",
   "AAudioStreamBuilder_setFormat",
   "AAudioStreamBuilder_setSharingMode",
   "AAudioStreamBuilder_setDirection",
   "AAudioStreamBuilder_setBufferCapacityInFrames",
   "AAudioStreamBuilder_setPerformanceMode",
   "AAudioStreamBuilder_setDataCallback",
   "AAudioStreamBuilder_setFramesPerDataCallback",
   "AAudioStreamBuilder_setErrorCallback",
   "AAudioStreamBuilder_openStream",
   "AAudioStreamBuilder_delete",
   "AAudioStream_close",
   "AAudioStream_requestStart",
   "AAudioStream_requestPause",
   "AAudioStream_requestFlush",
   "AAudioStream_requestStop",
   "AAudioStream_getState",
   "AAudioStream_waitForStateChange",
   "AAudioStream_read",
   "AAudioStream_write",
   "AAudioStream_setBufferSizeInFrames",
   "AAudioStream_getBufferSizeInFrames",
   "AAudioStream_getFramesPerBurst",
   "AAudioStream_getBufferCapacityInFrames",
   "AAudioStream_getFramesPerDataCallback",
   "AAudioStream_getXRunCount",
   "AAudioStream_getSampleRate",
   "AAudioStream_getChannelCount",
   "AAudioStream_getSamplesPerFrame",
   "AAudioStream_getDeviceId",
   "AAudioStream_getFormat",
   "AAudioStream_getSharingMode",
   "AAudioStream_getPerformanceMode",
   "AAudioStream_getDirection",
   "AAudioStream_getFramesWritten",
   "AAudioStream_getFramesRead",
   "AAudioStream_getTimestamp"]

/-- Symbols of the API 28 tier (lib_functions28 in ao_aaudio.c). -/
def lib_functions28 : List String :=
  ["AAudioStreamBuilder_setUsage",
   "AAudioStreamBuilder_setContentType"]

/-- Capability table lib_functions in ao_aaudio.c: pairs of minimum
API level and the symbol tier bound from that level on, in ascending
version order. -/
def lib_functions : List (Nat × List String) :=
  [(26, lib_functions26), (28, lib_functions28)]

/-- Outer loop of load_lib_functions: walk the capability table in
order; the loop breaks at the first tier whose api_level exceeds the
detected device_api, and inside a tier any unresolved symbol returns
false immediately (List.all stops at the first false, like the C inner
loop returning on the first failed dlsym pair). -/
def load_tiers (api : Nat) (resolve : String → Bool) :
    List (Nat × List String) → Bool
  | [] => true
  | (lvl, syms) :: rest =>
    if api < lvl then
      true
    else if syms.all resolve then
      load_tiers api resolve rest
    else
      false

/-- load_lib_functions (ao_aaudio.c lines 197-223): dlopen of the
audio library must succeed (handle_ok), then every tier applicable to
the detected API level must resolve completely.  The resolve argument
stands for the dlsym lookup with its RTLD_DEFAULT fallback. -/
def load_lib_functions (api : Nat) (handle_ok : Bool)
    (resolve : String → Bool) : Bool :=
  if handle_ok then load_tiers api resolve lib_functions else false

/-- Properties of the stream the OS hands back from a successful
AAudioStreamBuilder_openStream: the granted channel count
(AAudioStream_getChannelCount) and the granted buffer capacity
(AAudioStream_getBufferCapacityInFrames). -/
structure Granted where
  channel_count : Nat
  buffer_capacity : Nat
  deriving DecidableEq, Repr

/-- Calls the embedded driver functions perform, recorded as a trace
so ordering can be stated. -/
inductive Event
  | set_ao_format (f : AFFormat)
  | builder_set_format (f : AAudioFormat)
  | builder_set_channel_count (n : Nat)
  | open_stream
  | request_start
  | wait_state
  | delete_builder
  | close_stream
  | close_lib
  deriving DecidableEq, Repr

/-- Event a occurs strictly before event b in a trace. -/
def before (a b : Event) (tr : List Event) : Prop :=
  tr.indexOf a < tr.indexOf b

instance (a b : Event) (tr : List Event) : Decidable (before a b tr) :=
  inferInstanceAs (Decidable (_ < _))

/-- Driver state: the caller-visible ao fields the driver reads and
writes (format, channels.num, samplerate, device_buffer) together with
the priv fields (builder and stream handles, library handle,
device_api). -/
structure Driver where
  ao_format : AFFormat
  channels_num : Nat
  samplerate : Nat
  device_buffer : Nat
  builder : Bool
  stream : Option Granted
  lib_handle : Bool
  device_api : Nat
  deriving DecidableEq, Repr

/-- Oracle for one execution of init: the detected API level, whether
dlopen succeeded, the two dlsym resolvers (library handle first, then
RTLD_DEFAULT), and the results of the builder-creation and open
calls. -/
structure InitWorld where
  device_api : Nat
  handle_ok : Bool
  resolve_lib : String → Bool
  resolve_dfl : String → Bool
  createBuilder_result : Int
  openStream_result : Int
  granted : Granted

/-- Combined symbol lookup of load_lib_functions: dlsym on the library
handle, falling back to dlsym on RTLD_DEFAULT. -/
def resolve_sym (w : InitWorld) (s : String) : Bool :=
  w.resolve_lib s || w.resolve_dfl s

/-- Result of init: the returned int (1 on success, -1 on failure),
the driver state afterwards, and the trace of builder/open calls. -/
structure InitOut where
  result : Int
  d : Driver
  tr : List Event
  deriving Repr

/-- init (ao_aaudio.c lines 276-336).  The driver requests the
pipeline channel count via AAudioStreamBuilder_setChannelCount and
never reads the granted channel count back: success depends only on
the builder-creation and open results.  dlopen leaves lib_handle set
even when symbol resolution fails afterwards. -/
def init (w : InitWorld) (ao : Driver) : InitOut :=
  let d0 : Driver :=
    { ao with
      device_api := w.device_api
      lib_handle := w.handle_ok
      builder := false
      stream := none }
  if load_lib_functions w.device_api w.handle_ok (resolve_sym w) then
    if 0 ≤ w.createBuilder_result then
      let sel := init_select_format w.device_api d0.ao_format
      let fmt_tr : List Event :=
        if passthrough_case w.device_api d0.ao_format then
          []
        else
          [Event.set_ao_format sel.2]
      let d1 : Driver := { d0 with ao_format := sel.2, builder := true }
      let tr : List Event :=
        fmt_tr ++ [Event.builder_set_format sel.1,
                   Event.builder_set_channel_count d0.channels_num,
                   Event.open_stream]
      if 0 ≤ w.openStream_result then
        { result := 1
          d := { d1 with
                 stream := some w.granted
                 device_buffer := w.granted.buffer_capacity }
          tr := tr }
      else
        { result := -1, d := d1, tr := tr }
    else
      { result := -1, d := d0, tr := [] }
  else
    { result := -1, d := d0, tr := [] }

/-- Oracle for one execution of start: results of the lazy
AAudioStreamBuilder_openStream (used only when the stream handle is
absent), the stream granted by that open, and the results of
AAudioStream_requestStart and AAudioStream_waitForStateChange. -/
structure StartWorld where
  openStream_result : Int
  granted : Granted
  requestStart_result : Int
  wait_result : Int

/-- start (ao_aaudio.c lines 338-358): reopen the stream lazily when
it is absent; only when the running result is nonnegative request the
start and wait for the state change. -/
def start (w : StartWorld) (d : Driver) : Driver × List Event :=
  let t : Int × Driver × List Event :=
    match d.stream with
    | none =>
      if 0 ≤ w.openStream_result then
        (w.openStream_result,
         { d with
           stream := some w.granted
           device_buffer := w.granted.buffer_capacity },
         [Event.open_stream])
      else
        (w.openStream_result, d, [Event.open_stream])
    | some _ => ((0 : Int), d, [])
  let result := t.1
  let d1 := t.2.1
  let tr := t.2.2
  if 0 ≤ result then
    if 0 ≤ w.requestStart_result then
      (d1, tr ++ [Event.request_start, Event.wait_state])
    else
      (d1, tr ++ [Event.request_start])
  else
    (d1, tr)

/-- uninit (ao_aaudio.c lines 256-274): each of the three present
handles is released and its field nulled, in source order builder,
stream, library; a field that is already null is skipped, so the final
state always has all three cleared. -/
def uninit (d : Driver) : Driver × List Event :=
  ({ d with builder := false, stream := none, lib_handle := false },
   (if d.builder then [Event.delete_builder] else [])
     ++ (if d.stream.isSome then [Event.close_stream] else [])
     ++ (if d.lib_handle then [Event.close_lib] else []))

/-- reset (ao_aaudio.c lines 384-392): close the stream when present
and null the handle; a missing stream is a no-op. -/
def reset (d : Driver) : Driver × List Event :=
  ({ d with stream := none },
   if d.stream.isSome then [Event.close_stream] else [])

/-- Observable OS stream state for set_pause. -/
inductive SState
  | started
  | paused
  deriving DecidableEq, Repr

/-- Oracle for one execution of set_pause: results of
AAudioStream_requestPause, AAudioStream_requestStart and
AAudioStream_waitForStateChange. -/
structure PauseWorld where
  requestPause_result : Int
  requestStart_result : Int
  wait_result : Int
  deriving DecidableEq, Repr

/-- Request result set_pause examines: requestPause when pausing,
requestStart when unpausing. -/
def pause_request_result (paused : Bool) (w : PauseWorld) : Int :=
  if paused then w.requestPause_result else w.requestStart_result

/-- set_pause (ao_aaudio.c lines 360-382): issue the request; when its
result is nonnegative, wait for the state change and return true
regardless of the wait result; otherwise return false.  A request the
OS rejected does not transition the stream, so on the false path the
observable state st is unchanged. -/
def set_pause (paused : Bool) (w : PauseWorld) (st : SState) :
    Bool × SState :=
  if 0 ≤ pause_request_result paused w then
    (true, if paused then SState.paused else SState.started)
  else
    (false, st)

/-- Oracle for one data-callback invocation: the cumulative frames
written (AAudioStream_getFramesWritten), the presentation timestamp
when AAudioStream_getTimestamp succeeds (frame position and wall time),
the prior contents of the presented variable (the C code declares
int64_t presented without initialising it and ignores the result of
AAudioStream_getTimestamp, so a failed query leaves this residue in
the variable), the current wall clock (mp_time_ns), and the
end-of-stream flag ao_read_data reports. -/
structure CallbackWorld where
  frames_written : Int
  timestamp : Option (Int × Int)
  residue : Int
  now : Int
  eof : Bool

/-- Presentation deadline computed by data_callback (ao_aaudio.c lines
246-248): end_time = mp_time_ns() + MP_TIME_S_TO_NS(nframes)/rate +
MP_TIME_S_TO_NS(written - presented)/rate, with MP_TIME_S_TO_NS
multiplying by 10^9 and C integer division truncating toward zero. -/
def callback_end_time (now written presented nframes rate : Int) : Int :=
  now + Int.tdiv (nframes * 1000000000) rate
      + Int.tdiv ((written - presented) * 1000000000) rate

/-- data_callback (ao_aaudio.c lines 234-254): returns the deadline
passed to ao_read_data and the stop/continue decision (stop exactly on
end of stream).  When the timestamp query fails the presented variable
keeps its residue value. -/
def data_callback (w : CallbackWorld) (nframes rate : Int) : Int × Bool :=
  let written := w.frames_written
  let presented : Int :=
    match w.timestamp with
    | some pt => pt.1
    | none => w.residue
  (callback_end_time w.now written presented nframes rate, w.eof)

/-- Modelled from the spec: the presentation deadline as section 4.3
step 3 words it, current wall time plus the requested frame count over
the sample rate in nanoseconds plus the written-minus-presented
backlog over the sample rate in nanoseconds. -/
def spec_presentation_deadline (now nframes rate written presented : Int) :
    Int :=
  now + Int.tdiv (nframes * 1000000000) rate
      + Int.tdiv ((written - presented) * 1000000000) rate

/-! Theorems -/

/-- Concrete requested driver state used to instantiate init claims. -/
def ao0 : Driver :=
  { ao_format := .s32
    channels_num := 2
    samplerate := 48000
    device_buffer := 0
    builder := false
    stream := none
    lib_handle := false
    device_api := 0 }

/-- Concrete init oracle used to instantiate claim C1 (API level 30,
all calls succeed, all symbols resolve from the library handle). -/
def w_ok : InitWorld :=
  { device_api := 30
    handle_ok := true
    resolve_lib := fun _ => true
    resolve_dfl := fun _ => false
    createBuilder_result := 0
    openStream_result := 0
    granted := { channel_count := 2, buffer_capacity := 512 } }

/-- C1: init selects the stream format with precedence passthrough,
float, wide integer, 16 bit: a spdif request at API 34 or above is
used unchanged; a float request yields the native float format at
every API level; an integer request wider than 16 bits yields the
32-bit integer format exactly when the API level is at least 31 and
16-bit below that, and the 32-bit format is never selected below API
31; in every non-passthrough case init writes the selected format to
the caller-visible format field before the open call. -/
theorem c1_format_selection :
    (∀ (api : Nat) (f : AFFormat), f.is_spdif = true → 34 ≤ api →
      init_select_format api f = (.iec61937, f))
    ∧ (∀ (api : Nat) (f : AFFormat), f.is_float = true →
      init_select_format api f = (.pcm_float, .flt))
    ∧ (∀ (api : Nat) (f : AFFormat), f.is_int = true →
      2 < af_fmt_to_bytes f →
      (31 ≤ api → init_select_format api f = (.pcm_i32, .s32))
      ∧ (api < 31 → init_select_format api f = (.pcm_i16, .s16)))
    ∧ (∀ (api : Nat) (f : AFFormat),
      (init_select_format api f).1 = .pcm_i32 → 31 ≤ api)
    ∧ (∀ (w : InitWorld) (ao : Driver),
      load_lib_functions w.device_api w.handle_ok (resolve_sym w) = true →
      0 ≤ w.createBuilder_result →
      passthrough_case w.device_api ao.ao_format = false →
      (init w ao).d.ao_format
          = (init_select_format w.device_api ao.ao_format).2
      ∧ ∃ pre post, (init w ao).tr = pre ++ Event.open_stream :: post
          ∧ Event.set_ao_format
              (init_select_format w.device_api ao.ao_format).2 ∈ pre) := by
  refine ⟨?_, ?_, ?_, ?_, ?_⟩
  · intro api f hs h34
    simp [init_select_format, passthrough_case, hs, h34]
  · intro api f hf
    cases f <;> simp_all [init_select_format, passthrough_case,
      AFFormat.is_spdif, AFFormat.is_float]
  · intro api f hi hb
    cases f <;>
      simp_all [init_select_format, passthrough_case, AFFormat.is_spdif,
        AFFormat.is_float, AFFormat.is_int, af_fmt_to_bytes]
  · intro api f h
    cases f <;>
      simp_all [init_select_format, passthrough_case, AFFormat.is_spdif,
        AFFormat.is_float, AFFormat.is_int, af_fmt_to_bytes] <;>
      split_ifs at h <;> simp_all
  · intro w ao hload hcreate hpt
    by_cases ho : 0 ≤ w.openStream_result <;>
      [skip; skip] <;>
      refine ⟨by simp [init, hload, hcreate, hpt, ho], ?_⟩ <;>
      refine ⟨[Event.set_ao_format
          (init_select_format w.device_api ao.ao_format).2,
        Event.builder_set_format
          (init_select_format w.device_api ao.ao_format).1,
        Event.builder_set_channel_count ao.channels_num], [], ?_, by simp⟩ <;>
      simp [init, hload, hcreate, hpt, ho]

/-- Witness for C1 at concrete inputs: API 34 with an spdif request,
float at API 20, a 32-bit integer request at API 31 and at API 30, and
the concrete init world w_ok. -/
theorem c1_format_selection_witness :
    init_select_format 34 .spdif_ac3 = (.iec61937, .spdif_ac3)
    ∧ init_select_format 20 .dbl = (.pcm_float, .flt)
    ∧ init_select_format 31 .s32 = (.pcm_i32, .s32)
    ∧ init_select_format 30 .s32 = (.pcm_i16, .s16)
    ∧ ((init w_ok ao0).d.ao_format
          = (init_select_format w_ok.device_api ao0.ao_format).2
      ∧ ∃ pre post, (init w_ok ao0).tr = pre ++ Event.open_stream :: post
          ∧ Event.set_ao_format
              (init_select_format w_ok.device_api ao0.ao_format).2 ∈ pre) :=
  ⟨c1_format_selection.1 34 .spdif_ac3 (by decide) (by decide),
   c1_format_selection.2.1 20 .dbl (by decide),
   (c1_format_selection.2.2.1 31 .s32 (by decide) (by decide)).1 (by decide),
   (c1_format_selection.2.2.1 30 .s32 (by decide) (by decide)).2 (by decide),
   c1_format_selection.2.2.2.2 w_ok ao0 (by decide) (by decide) (by decide)⟩

/-- Concrete init oracle in which the OS grants a stream with 11
channels (all calls succeed, all symbols resolve). -/
def w_c2 : InitWorld :=
  { device_api := 30
    handle_ok := true
    resolve_lib := fun _ => true
    resolve_dfl := fun _ => false
    createBuilder_result := 0
    openStream_result := 0
    granted := { channel_count := 11, buffer_capacity := 512 } }

/-- C2 counterexample: when the OS grants a channel count of 11 (a
count with no canonical layout) and the open succeeds, init returns
success and leaves the stream open, so init does not fail with a
layout error on such a grant. -/
theorem c2_counterexample :
    (init w_c2 ao0).result = 1
    ∧ (init w_c2 ao0).d.stream
        = some { channel_count := 11, buffer_capacity := 512 } := by
  decide

/-- C2 amended: init passes the requested channel count to the
builder and never reads the granted channel count back; whenever
library loading, builder creation and the open succeed, init returns
success with the stream left open, for every granted channel
count. -/
theorem c2_channel_count_not_checked :
    ∀ (w : InitWorld) (ao : Driver),
      load_lib_functions w.device_api w.handle_ok (resolve_sym w) = true →
      0 ≤ w.createBuilder_result →
      0 ≤ w.openStream_result →
      (init w ao).result = 1
      ∧ (init w ao).d.stream = some w.granted
      ∧ Event.builder_set_channel_count ao.channels_num ∈ (init w ao).tr := by
  intro w ao hload hc ho
  refine ⟨?_, ?_, ?_⟩ <;>
    by_cases hpt : passthrough_case w.device_api ao.ao_format <;>
      simp [init, hload, hc, ho, hpt]

/-- Witness for C2 amended: the oracle granting 11 channels. -/
theorem c2_channel_count_not_checked_witness :
    (init w_c2 ao0).result = 1
    ∧ (init w_c2 ao0).d.stream = some w_c2.granted
    ∧ Event.builder_set_channel_count ao0.channels_num ∈ (init w_c2 ao0).tr :=
  c2_channel_count_not_checked w_c2 ao0 (by decide) (by decide) (by decide)

/-- Capability-table walk characterisation: the walk over the concrete
table succeeds exactly when every tier whose minimum level is at or
below the detected level resolves all of its symbols. -/
theorem load_tiers_table (api : Nat) (r : String → Bool) :
    load_tiers api r lib_functions = true
      ↔ ∀ t ∈ lib_functions, t.1 ≤ api → t.2.all r = true := by
  simp only [lib_functions, load_tiers, List.forall_mem_cons,
    List.not_mem_nil, false_implies, implies_true, and_true]
  split_ifs with h26 hall26 h28 hall28
  · simp only [true_iff]
    exact ⟨fun h => by omega, fun h => by omega⟩
  · simp only [true_iff]
    exact ⟨fun _ => hall26, fun h => by omega⟩
  · simp only [true_iff]
    exact ⟨fun _ => hall26, fun _ => hall28⟩
  · simp only [Bool.false_eq_true, false_iff, not_and]
    intro _ hb
    exact hall28 (hb (by omega))
  · simp only [Bool.false_eq_true, false_iff, not_and]
    intro ha _
    exact hall26 (ha (by omega))

/-- C3: probing succeeds exactly when the library handle loaded and
every tier of the capability table applicable to the detected API
level resolves every one of its named symbols (the walk stops at the
first tier whose minimum level exceeds the detected level, hence a
single unresolved applicable symbol fails the whole probe), and a
failed probe makes init fail, so a partially bound capability set is
never exposed as a successfully initialized driver. -/
theorem c3_probe_all_or_nothing :
    (∀ (api : Nat) (hok : Bool) (r : String → Bool),
      load_lib_functions api hok r = true
        ↔ hok = true ∧ ∀ t ∈ lib_functions, t.1 ≤ api →
            t.2.all r = true)
    ∧ (∀ (w : InitWorld) (ao : Driver),
      load_lib_functions w.device_api w.handle_ok (resolve_sym w) = false →
      (init w ao).result = -1) := by
  constructor
  · intro api hok r
    cases hok
    · simp [load_lib_functions]
    · simp [load_lib_functions, load_tiers_table]
  · intro w ao h
    simp [init, h]

/-- Witness for C3: the characterisation at API level 30 with a
resolver that finds every symbol, and a failed probe (library load
failure) making init fail. -/
theorem c3_probe_all_or_nothing_witness :
    (load_lib_functions 30 true (fun _ => true) = true
      ↔ true = true ∧ ∀ t ∈ lib_functions, t.1 ≤ 30 →
          t.2.all (fun _ => true) = true)
    ∧ (init { w_c2 with handle_ok := false } ao0).result = -1 :=
  ⟨c3_probe_all_or_nothing.1 30 true (fun _ => true),
   c3_probe_all_or_nothing.2 { w_c2 with handle_ok := false } ao0 (by decide)⟩

/-- Concrete callback oracle with a successful timestamp query. -/
def cb_c4 : CallbackWorld :=
  { frames_written := 1000
    timestamp := some (400, 77)
    residue := 0
    now := 5
    eof := false }

/-- C4: on a data-callback invocation whose timestamp query succeeds,
the deadline passed to the pipeline equals the current wall time plus
the requested frame count over the sample rate in nanoseconds plus
the written-minus-presented backlog over the sample rate in
nanoseconds. -/
theorem c4_deadline_formula :
    ∀ (w : CallbackWorld) (nframes rate p t : Int),
      w.timestamp = some (p, t) →
      (data_callback w nframes rate).1
        = spec_presentation_deadline w.now nframes rate w.frames_written p := by
  intro w nframes rate p t h
  simp [data_callback, h, callback_end_time, spec_presentation_deadline]

/-- Witness for C4 at the concrete callback oracle cb_c4. -/
theorem c4_deadline_formula_witness :
    (data_callback cb_c4 480 48000).1
      = spec_presentation_deadline 5 480 48000 1000 400 :=
  c4_deadline_formula cb_c4 480 48000 400 77 rfl

/-- Concrete callback oracle in which the timestamp query fails and
the presented variable holds residue 0. -/
def cb_fail : CallbackWorld :=
  { frames_written := 1000
    timestamp := none
    residue := 0
    now := 0
    eof := false }

/-- Concrete callback oracle in which the timestamp query reports the
presented count equal to the written count (the fallback the claim
mandates for a failed query). -/
def cb_fallback : CallbackWorld :=
  { frames_written := 1000
    timestamp := some (1000, 0)
    residue := 0
    now := 0
    eof := false }

/-- C5: the code ignores the result of AAudioStream_getTimestamp, so
when the query fails the presented variable keeps whatever it held
before (it is declared uninitialised in the C source) instead of
being set to the written count; at frames_written 1000, residue 0,
480 frames at 48000 Hz the computed deadline is 30833333 ns, while
treating presented as written would give 10000000 ns, so the backlog
term is not zero on the failure path. -/
theorem c5_no_timestamp_fallback :
    (data_callback cb_fail 480 48000).1 = 30833333
    ∧ (data_callback cb_fallback 480 48000).1 = 10000000
    ∧ (data_callback cb_fail 480 48000).1
        ≠ (data_callback cb_fallback 480 48000).1 := by
  decide

/-- C6 counterexample: with the pause request succeeding (result 0)
and the state-change confirmation failing (result -1), set_pause
still returns true, so the returned boolean is not true exactly when
both the request and its confirmation returned success. -/
theorem c6_counterexample :
    (set_pause true
        { requestPause_result := 0, requestStart_result := 0,
          wait_result := -1 } SState.started).1 = true
    ∧ ({ requestPause_result := 0, requestStart_result := 0,
         wait_result := -1 } : PauseWorld).wait_result < 0 := by
  decide

/-- C6 amended: set_pause returns true exactly when the OS pause or
start request returned success; the result of the state-change
confirmation does not affect the returned boolean, and when set_pause
returns false the observable stream state is unchanged. -/
theorem c6_return_tracks_request :
    ∀ (paused : Bool) (w : PauseWorld) (st : SState),
      ((set_pause paused w st).1 = true
        ↔ 0 ≤ pause_request_result paused w)
      ∧ ((set_pause paused w st).1 = false
        → (set_pause paused w st).2 = st) := by
  intro paused w st
  by_cases h : 0 ≤ pause_request_result paused w <;> simp [set_pause, h]

/-- Witness for C6 amended: a rejected pause request (result -1)
returns false and leaves the started state unchanged. -/
theorem c6_return_tracks_request_witness :
    ((set_pause true
        { requestPause_result := -1, requestStart_result := 0,
          wait_result := 0 } SState.started).1 = true
      ↔ 0 ≤ pause_request_result true
          { requestPause_result := -1, requestStart_result := 0,
            wait_result := 0 })
    ∧ ((set_pause true
        { requestPause_result := -1, requestStart_result := 0,
          wait_result := 0 } SState.started).1 = false
      → (set_pause true
          { requestPause_result := -1, requestStart_result := 0,
            wait_result := 0 } SState.started).2 = SState.started) :=
  c6_return_tracks_request true
    { requestPause_result := -1, requestStart_result := 0,
      wait_result := 0 } SState.started

/-- Concrete driver holding all three handles (builder, stream and
library). -/
def d_full : Driver :=
  { ao_format := .s16
    channels_num := 2
    samplerate := 48000
    device_buffer := 512
    builder := true
    stream := some { channel_count := 2, buffer_capacity := 512 }
    lib_handle := true
    device_api := 30 }

/-- C7 counterexample: on a driver holding all three handles, uninit
deletes the builder first and closes the stream second, so the live
stream handle is not closed before the builder is deleted. -/
theorem c7_counterexample :
    (uninit d_full).2
      = [Event.delete_builder, Event.close_stream, Event.close_lib]
    ∧ ¬ before Event.close_stream Event.delete_builder (uninit d_full).2 := by
  decide

/-- C7 amended: uninit tears down the builder, then the stream, then
the library handle, in that order; the live stream handle is closed
before the library handle is released; and uninit is idempotent,
leaving all three handles cleared. -/
theorem c7_teardown_order :
    ∀ d : Driver, d.builder = true → d.stream.isSome = true →
      d.lib_handle = true →
      (uninit d).2
        = [Event.delete_builder, Event.close_stream, Event.close_lib]
      ∧ before Event.close_stream Event.close_lib (uninit d).2
      ∧ uninit (uninit d).1 = ((uninit d).1, [])
      ∧ (uninit d).1.builder = false
      ∧ (uninit d).1.stream = none
      ∧ (uninit d).1.lib_handle = false := by
  intro d hb hs hl
  refine ⟨by simp [uninit, hb, hs, hl], ?_, by simp [uninit], rfl, rfl, rfl⟩
  simp only [uninit, hb, hs, hl, if_true]
  decide

/-- Witness for C7 amended at the concrete driver d_full. -/
theorem c7_teardown_order_witness :
    (uninit d_full).2
      = [Event.delete_builder, Event.close_stream, Event.close_lib]
    ∧ before Event.close_stream Event.close_lib (uninit d_full).2
    ∧ uninit (uninit d_full).1 = ((uninit d_full).1, [])
    ∧ (uninit d_full).1.builder = false
    ∧ (uninit d_full).1.stream = none
    ∧ (uninit d_full).1.lib_handle = false :=
  c7_teardown_order d_full rfl rfl rfl

/-- Strict growth of the scaled truncating division on naturals: one
extra frame adds a full second of nanoseconds to the dividend, which
exceeds any sample rate bounded by 10^9. -/
theorem nat_mul_div_lt (a b r : Nat) (hab : a < b) (hr : 0 < r)
    (hrK : r ≤ 1000000000) :
    a * 1000000000 / r < b * 1000000000 / r := by
  have h2 : a * 1000000000 + r ≤ b * 1000000000 := by
    have hb : a + 1 ≤ b := hab
    calc a * 1000000000 + r ≤ a * 1000000000 + 1000000000 := by omega
      _ = (a + 1) * 1000000000 := by ring
      _ ≤ b * 1000000000 := Nat.mul_le_mul_right _ hb
  calc a * 1000000000 / r < a * 1000000000 / r + 1 := Nat.lt_succ_self _
    _ = (a * 1000000000 + r) / r := (Nat.add_div_right _ hr).symm
    _ ≤ b * 1000000000 / r := Nat.div_le_div_right h2

/-- Strict growth of the scaled truncating division on integers with
nonnegative numerators. -/
theorem int_mul_tdiv_lt (a b r : Int) (ha : 0 ≤ a) (hab : a < b)
    (hr : 0 < r) (hrK : r ≤ 1000000000) :
    Int.tdiv (a * 1000000000) r < Int.tdiv (b * 1000000000) r := by
  have hb : (0 : Int) ≤ b := le_trans ha (le_of_lt hab)
  lift a to ℕ using ha
  lift b to ℕ using hb
  lift r to ℕ using le_of_lt hr
  have h1 : (a : Int) * 1000000000 = ((a * 1000000000 : ℕ) : Int) := by
    push_cast
    ring
  have h2 : (b : Int) * 1000000000 = ((b * 1000000000 : ℕ) : Int) := by
    push_cast
    ring
  rw [h1, h2, ← Int.ofNat_tdiv, ← Int.ofNat_tdiv]
  exact_mod_cast nat_mul_div_lt a b r (by exact_mod_cast hab)
    (by exact_mod_cast hr) (by exact_mod_cast hrK)

/-- C8: holding frames written, frames presented and the wall clock
fixed, the deadline computed by the data callback is strictly
increasing in the requested frame count, for every positive sample
rate up to 10^9 Hz, despite the truncating integer division. -/
theorem c8_deadline_strict_mono :
    ∀ (w : CallbackWorld) (n1 n2 rate : Int),
      0 ≤ n1 → n1 < n2 → 0 < rate → rate ≤ 1000000000 →
      (data_callback w n1 rate).1 < (data_callback w n2 rate).1 := by
  intro w n1 n2 rate h0 h12 hr hrK
  have h := int_mul_tdiv_lt n1 n2 rate h0 h12 hr hrK
  simp only [data_callback, callback_end_time]
  linarith

/-- Witness for C8: frame counts 100 and 101 at 48000 Hz on the
concrete callback oracle cb_c4. -/
theorem c8_deadline_strict_mono_witness :
    (data_callback cb_c4 100 48000).1 < (data_callback cb_c4 101 48000).1 :=
  c8_deadline_strict_mono cb_c4 100 101 48000 (by decide) (by decide)
    (by decide) (by decide)

/-- C9: the close path is idempotent: a second reset produces no
close call and the same closed state, the state after reset has no
stream handle, a second uninit produces no calls and the same state,
and resetting a driver with no stream performs no close call. -/
theorem c9_close_idempotent :
    ∀ d : Driver,
      reset (reset d).1 = ((reset d).1, [])
      ∧ (reset d).1.stream = none
      ∧ uninit (uninit d).1 = ((uninit d).1, [])
      ∧ (d.stream = none → (reset d).2 = []) := by
  intro d
  refine ⟨by simp [reset], rfl, by simp [uninit], ?_⟩
  intro h
  simp [reset, h]

/-- Witness for C9 at the concrete driver d_full. -/
theorem c9_close_idempotent_witness :
    reset (reset d_full).1 = ((reset d_full).1, [])
    ∧ (reset d_full).1.stream = none
    ∧ uninit (uninit d_full).1 = ((uninit d_full).1, [])
    ∧ (d_full.stream = none → (reset d_full).2 = []) :=
  c9_close_idempotent d_full

/-- Concrete start oracle whose lazy open succeeds. -/
def sw_ok : StartWorld :=
  { openStream_result := 0
    granted := { channel_count := 2, buffer_capacity := 256 }
    requestStart_result := 0
    wait_result := 0 }

/-- Concrete start oracle whose lazy open fails. -/
def sw_bad : StartWorld :=
  { openStream_result := -1
    granted := { channel_count := 2, buffer_capacity := 256 }
    requestStart_result := 0
    wait_result := 0 }

/-- C10: after every successful open the reported device buffer size
is the buffer capacity granted by the opened stream, both in init and
in the lazy reopen inside start; and when the lazy reopen in start
fails, no start request is issued and the stream handle stays
absent. -/
theorem c10_device_buffer_and_lazy_open :
    (∀ (w : InitWorld) (ao : Driver),
      load_lib_functions w.device_api w.handle_ok (resolve_sym w) = true →
      0 ≤ w.createBuilder_result → 0 ≤ w.openStream_result →
      (init w ao).d.device_buffer = w.granted.buffer_capacity
      ∧ (init w ao).d.stream = some w.granted)
    ∧ (∀ (w : StartWorld) (d : Driver), d.stream = none →
      0 ≤ w.openStream_result →
      (start w d).1.device_buffer = w.granted.buffer_capacity
      ∧ (start w d).1.stream = some w.granted)
    ∧ (∀ (w : StartWorld) (d : Driver), d.stream = none →
      w.openStream_result < 0 →
      Event.request_start ∉ (start w d).2
      ∧ (start w d).1.stream = none) := by
  refine ⟨?_, ?_, ?_⟩
  · intro w ao hl hc ho
    by_cases hpt : passthrough_case w.device_api ao.ao_format <;>
      simp [init, hl, hc, ho, hpt]
  · intro w d hs ho
    by_cases hrs : 0 ≤ w.requestStart_result <;> simp [start, hs, ho, hrs]
  · intro w d hs ho
    have hno : ¬ 0 ≤ w.openStream_result := by omega
    simp [start, hs, hno]

/-- Witness for C10: the concrete init oracle w_ok, and the two
concrete start oracles on a closed driver. -/
theorem c10_device_buffer_and_lazy_open_witness :
    ((init w_ok ao0).d.device_buffer = w_ok.granted.buffer_capacity
      ∧ (init w_ok ao0).d.stream = some w_ok.granted)
    ∧ ((start sw_ok ao0).1.device_buffer = sw_ok.granted.buffer_capacity
      ∧ (start sw_ok ao0).1.stream = some sw_ok.granted)
    ∧ (Event.request_start ∉ (start sw_bad ao0).2
      ∧ (start sw_bad ao0).1.stream = none) :=
  ⟨c10_device_buffer_and_lazy_open.1 w_ok ao0 (by decide) (by decide)
      (by decide),
   c10_device_buffer_and_lazy_open.2.1 sw_ok ao0 rfl (by decide),
   c10_device_buffer_and_lazy_open.2.2 sw_bad ao0 rfl (by decide)⟩

end Aaudio
